import Mathlib

/-!
Verification of the pointer-driven pixel-sampling subsystem of
`src/frontend/src/features/canvas/hooks/useColorUnderCursor.ts`.

The hook `useColorPicker` obtains the Konva stage and base raster layer,
and returns two closures: `updateColorUnderCursor`, which reads a 1x1
pixel at the device-pixel-ratio-scaled pointer position and dispatches
`setColorPickerColor`, and `commitColorUnderCursor`, which dispatches
`commitColorPickerColor`.  The Redux reducers of `canvasSlice` and the
canvas `getImageData` primitive are external to `src/` and are modelled
from the spec where noted.
-/

namespace RaiWebUI

/-- An RGBA color, one byte per channel (spec: `RGBAColor`). -/
structure RGBAColor where
  r : Nat
  g : Nat
  b : Nat
  a : Nat
deriving DecidableEq, Repr

/-- A pointer position in stage-logical coordinates (spec: `PointerPosition`). -/
structure Position where
  x : Rat
  y : Rat
deriving DecidableEq, Repr

/-- The stage: reports the current pointer position, which may be absent
(`stage.getPointerPosition()` in the source). -/
structure Stage where
  pointerPosition : Option Position

/-- A raster layer with a pixel-addressable backing buffer of the given
physical size (spec: `RasterLayer`). -/
structure RasterLayer where
  width : Nat
  height : Nat
  pixelAt : Nat → Nat → RGBAColor

/-- The color-picker slice of the application state (spec: `ColorPickerState`):
a transient `preview` color and a durable `committed` color, each possibly
absent (`Unset`). -/
structure ColorPickerState where
  preview : Option RGBAColor
  committed : Option RGBAColor
deriving DecidableEq, Repr

/-- Initial state: both slots `Unset`. -/
def initialColorPickerState : ColorPickerState :=
  { preview := none, committed := none }

/-- Actions dispatched by the hook to the store
(`setColorPickerColor`, `commitColorPickerColor` from `canvasSlice`). -/
inductive CanvasAction where
  | setColorPickerColor (c : RGBAColor)
  | commitColorPickerColor
deriving DecidableEq, Repr

/-- Modelled from the spec: the `canvasSlice` reducers for
`setColorPickerColor` and `commitColorPickerColor` are not under `src/`;
per spec section 4.2, `updatePreview` unconditionally overwrites `preview`,
and `commit` copies the current `preview` into `committed`, a no-op when
`preview` is absent. -/
def canvasReducer (s : ColorPickerState) (act : CanvasAction) : ColorPickerState :=
  match act with
  | .setColorPickerColor c => { s with preview := some c }
  | .commitColorPickerColor =>
    match s.preview with
    | some c => { s with committed := some c }
    | none => s

/-- Truncation of a rational toward zero, as applied by the WebIDL integer
conversion when a fractional coordinate reaches `getImageData`. -/
def intTrunc (q : Rat) : Int :=
  if 0 ≤ q then ⌊q⌋ else ⌈q⌉

/-- A 1x1-or-larger rectangular pixel-read request: the exact arguments
passed to `getContext().getImageData(x, y, w, h)`. -/
structure ImageDataRequest where
  x : Rat
  y : Rat
  w : Nat
  h : Nat
deriving DecidableEq, Repr

/-- Modelled from the spec: reading one physical pixel of the backing
buffer, as performed by the external canvas API behind
`RasterLayer.readPixels` (spec section 6); per spec section 4.1, a read
outside the buffer bounds yields transparent black `(0,0,0,0)` and never
raises a fatal error. -/
def readPixel (layer : RasterLayer) (xi yi : Int) : RGBAColor :=
  if 0 ≤ xi ∧ xi < (layer.width : Int) ∧ 0 ≤ yi ∧ yi < (layer.height : Int) then
    layer.pixelAt xi.toNat yi.toNat
  else
    { r := 0, g := 0, b := 0, a := 0 }

/-- Modelled from the spec: `RasterLayer.readPixels(x, y, w, h)` returns
`4 * w * h` bytes in row-major order, channel order R,G,B,A
(spec section 6); fractional coordinates are truncated toward zero by the
external interface, whose parameters are integers. -/
def getImageData (layer : RasterLayer) (req : ImageDataRequest) : List Nat :=
  (List.range req.h).flatMap fun dy =>
    (List.range req.w).flatMap fun dx =>
      let c := readPixel layer (intTrunc req.x + dx) (intTrunc req.y + dy)
      [c.r, c.g, c.b, c.a]

/-- The outcome of one call to `updateColorUnderCursor`: the resulting
store state, the pixel-read requests issued to the raster layer, and the
actions dispatched. -/
structure SampleResult where
  state : ColorPickerState
  reads : List ImageDataRequest
  dispatched : List CanvasAction
deriving DecidableEq, Repr

/-- The body of `updateColorUnderCursor` from the source: return early if
the stage or the base layer is absent; return early if there is no pointer
position; otherwise read a 1x1 pixel at
`(position.x * pixelRatio, position.y * pixelRatio)`, destructure the four
data bytes as `[r, g, b, a]`, and dispatch `setColorPickerColor`. -/
def updateColorUnderCursor (stage : Option Stage) (canvasBaseLayer : Option RasterLayer)
    (pixelRatio : Rat) (s : ColorPickerState) : SampleResult :=
  match stage, canvasBaseLayer with
  | some st, some layer =>
    match st.pointerPosition with
    | some position =>
      let req : ImageDataRequest :=
        { x := position.x * pixelRatio, y := position.y * pixelRatio, w := 1, h := 1 }
      let data := getImageData layer req
      let r := data.getD 0 0
      let g := data.getD 1 0
      let b := data.getD 2 0
      let a := data.getD 3 0
      let act := CanvasAction.setColorPickerColor { r := r, g := g, b := b, a := a }
      { state := canvasReducer s act, reads := [req], dispatched := [act] }
    | none => { state := s, reads := [], dispatched := [] }
  | _, _ => { state := s, reads := [], dispatched := [] }

/-- The rendering environment at a given moment: what
`getCanvasStage()` and `getCanvasBaseLayer()` currently return. -/
structure CanvasEnv where
  stage : Option Stage
  baseLayer : Option RasterLayer

/-- The value returned by `useColorPicker`: the closures capture the
`stage` and `canvasBaseLayer` constants read in the hook body. -/
structure ColorPickerHook where
  stage : Option Stage
  canvasBaseLayer : Option RasterLayer

/-- The hook body: `getCanvasBaseLayer()` and `getCanvasStage()` are
called once, at hook-invocation time, and their results are captured by
the returned closures. -/
def useColorPicker (env : CanvasEnv) : ColorPickerHook :=
  { stage := env.stage, canvasBaseLayer := env.baseLayer }

/-- A call to the `updateColorUnderCursor` closure at a moment when the
rendering environment is `callEnv`: the closure uses the references
captured in `hook` and does not consult `callEnv`. -/
def hookUpdateColorUnderCursor (hook : ColorPickerHook) (callEnv : CanvasEnv)
    (pixelRatio : Rat) (s : ColorPickerState) : SampleResult :=
  updateColorUnderCursor hook.stage hook.canvasBaseLayer pixelRatio s

/-- The per-call-lookup semantics described by the spec (references
"obtained per call, never cached across frames"): each sampling call reads
the currently-active stage and layer from the environment.  Stated from
the spec's words, for comparison with `hookUpdateColorUnderCursor`. -/
def freshUpdateColorUnderCursor (callEnv : CanvasEnv)
    (pixelRatio : Rat) (s : ColorPickerState) : SampleResult :=
  updateColorUnderCursor callEnv.stage callEnv.baseLayer pixelRatio s

/-- The outcome of one call to `commitColorUnderCursor`. -/
structure CommitResult where
  state : ColorPickerState
  dispatched : List CanvasAction
deriving DecidableEq, Repr

/-- The body of `commitColorUnderCursor` from the source: unconditionally
dispatch `commitColorPickerColor`; the captured stage and layer are not
consulted. -/
def commitColorUnderCursor (hook : ColorPickerHook) (s : ColorPickerState) : CommitResult :=
  { state := canvasReducer s CanvasAction.commitColorPickerColor,
    dispatched := [CanvasAction.commitColorPickerColor] }

/-- Concrete raster layer for the spec's scenario: 100x100, pixel at
physical (20, 40) is (255, 0, 128, 255), all others transparent black. -/
def testLayer : RasterLayer :=
  { width := 100, height := 100,
    pixelAt := fun x y =>
      if x = 20 ∧ y = 40 then { r := 255, g := 0, b := 128, a := 255 }
      else { r := 0, g := 0, b := 0, a := 0 } }

/-- Concrete stage reporting logical pointer position (10, 20). -/
def testStage : Stage :=
  { pointerPosition := some { x := 10, y := 20 } }

/-- Concrete stage whose logical pointer position (-1, 5) produces
out-of-bounds physical coordinates at pixel ratio 1. -/
def oobStage : Stage :=
  { pointerPosition := some { x := -1, y := 5 } }

/-- A 1x1 layer whose only pixel is opaque red. -/
def redLayer : RasterLayer :=
  { width := 1, height := 1, pixelAt := fun _ _ => { r := 255, g := 0, b := 0, a := 255 } }

/-- A 1x1 layer whose only pixel is opaque blue. -/
def blueLayer : RasterLayer :=
  { width := 1, height := 1, pixelAt := fun _ _ => { r := 0, g := 0, b := 255, a := 255 } }

/-- Environment in which the active layer is `redLayer`. -/
def envRed : CanvasEnv :=
  { stage := some { pointerPosition := some { x := 0, y := 0 } }, baseLayer := some redLayer }

/-- Environment in which the active layer is `blueLayer`. -/
def envBlue : CanvasEnv :=
  { stage := some { pointerPosition := some { x := 0, y := 0 } }, baseLayer := some blueLayer }


/-- The physical pixel addressed by a sample: the scaled coordinates
truncated by the external read interface. -/
def sampledColor (layer : RasterLayer) (pos : Position) (p : Rat) : RGBAColor :=
  readPixel layer (intTrunc (pos.x * p)) (intTrunc (pos.y * p))

section Lemmas

/-- Evaluating the modelled read on a 1x1 request: the four returned bytes
are the channels of the single addressed pixel. -/
theorem getImageData_one (layer : RasterLayer) (x y : Rat) :
    getImageData layer { x := x, y := y, w := 1, h := 1 } =
      [(readPixel layer (intTrunc x) (intTrunc y)).r,
       (readPixel layer (intTrunc x) (intTrunc y)).g,
       (readPixel layer (intTrunc x) (intTrunc y)).b,
       (readPixel layer (intTrunc x) (intTrunc y)).a] := by
  have hr : List.range 1 = [0] := rfl
  simp [getImageData, hr]

/-- Evaluating a successful sample: with stage, layer and pointer position
all present, `updateColorUnderCursor` reads once at the scaled coordinates,
sets `preview` to the addressed pixel, and dispatches one action. -/
theorem updateColorUnderCursor_sample (st : Stage) (layer : RasterLayer) (pos : Position)
    (p : Rat) (s : ColorPickerState) (h : st.pointerPosition = some pos) :
    updateColorUnderCursor (some st) (some layer) p s =
      { state := { preview := some (sampledColor layer pos p), committed := s.committed },
        reads := [{ x := pos.x * p, y := pos.y * p, w := 1, h := 1 }],
        dispatched := [CanvasAction.setColorPickerColor (sampledColor layer pos p)] } := by
  simp [updateColorUnderCursor, h, getImageData_one, canvasReducer, sampledColor]

end Lemmas

/-- Reading outside the backing buffer yields transparent black. -/
theorem readPixel_oob (layer : RasterLayer) (xi yi : Int)
    (h : xi < 0 ∨ (layer.width : Int) ≤ xi ∨ yi < 0 ∨ (layer.height : Int) ≤ yi) :
    readPixel layer xi yi = { r := 0, g := 0, b := 0, a := 0 } := by
  unfold readPixel
  rw [if_neg]
  rintro ⟨hx0, hxw, hy0, hyh⟩
  rcases h with h | h | h | h <;> omega

/-- C1: for every logical pointer position reported by the stage and every
pixel ratio, `updateColorUnderCursor` issues exactly one 1x1 pixel-read
request, at physical coordinates (x * p, y * p) exactly, with no rounding,
offset or other transformation applied to the requested coordinates. -/
theorem C1_sample_reads_exact_physical_coordinates
    (st : Stage) (layer : RasterLayer) (pos : Position) (p : Rat) (s : ColorPickerState)
    (h : st.pointerPosition = some pos) :
    (updateColorUnderCursor (some st) (some layer) p s).reads =
      [{ x := pos.x * p, y := pos.y * p, w := 1, h := 1 }] := by
  rw [updateColorUnderCursor_sample st layer pos p s h]

/-- Witness for C1 at pointer (10, 20) and pixel ratio 2. -/
theorem C1_sample_reads_exact_physical_coordinates_witness :
    testStage.pointerPosition = some { x := 10, y := 20 } ∧
    (updateColorUnderCursor (some testStage) (some testLayer) 2 initialColorPickerState).reads =
      [{ x := (10 : Rat) * 2, y := (20 : Rat) * 2, w := 1, h := 1 }] :=
  ⟨rfl, C1_sample_reads_exact_physical_coordinates testStage testLayer
    { x := 10, y := 20 } 2 initialColorPickerState rfl⟩

/-- C2: when the truncated physical coordinates fall outside the backing
buffer, the sample does not fail and the preview is set to transparent
black (0, 0, 0, 0). -/
theorem C2_out_of_bounds_sample_is_transparent_black
    (st : Stage) (layer : RasterLayer) (pos : Position) (p : Rat) (s : ColorPickerState)
    (h : st.pointerPosition = some pos)
    (hoob : intTrunc (pos.x * p) < 0 ∨ (layer.width : Int) ≤ intTrunc (pos.x * p) ∨
            intTrunc (pos.y * p) < 0 ∨ (layer.height : Int) ≤ intTrunc (pos.y * p)) :
    (updateColorUnderCursor (some st) (some layer) p s).state.preview =
      some { r := 0, g := 0, b := 0, a := 0 } := by
  rw [updateColorUnderCursor_sample st layer pos p s h]
  simp [sampledColor, readPixel_oob layer _ _ hoob]

/-- Witness for C2 at physical coordinates (-1, 5). -/
theorem C2_out_of_bounds_sample_is_transparent_black_witness :
    (oobStage.pointerPosition = some { x := -1, y := 5 } ∧
      intTrunc ((Position.mk (-1) 5).x * 1) < 0) ∧
    (updateColorUnderCursor (some oobStage) (some testLayer) 1 initialColorPickerState).state.preview =
      some { r := 0, g := 0, b := 0, a := 0 } :=
  ⟨⟨rfl, by norm_num [intTrunc, Int.ceil_neg]⟩,
    C2_out_of_bounds_sample_is_transparent_black oobStage testLayer
      { x := -1, y := 5 } 1 initialColorPickerState rfl
      (Or.inl (by norm_num [intTrunc, Int.ceil_neg]))⟩

/-- C3: if the stage is absent, the raster layer is absent, or the stage
reports no pointer position, the sampling operation performs no pixel read,
dispatches nothing, and leaves the state (in particular `preview`)
unchanged. -/
theorem C3_idle_conditions_are_noops
    (stage : Option Stage) (layer : Option RasterLayer) (p : Rat) (s : ColorPickerState)
    (h : stage = none ∨ layer = none ∨
         ∃ st, stage = some st ∧ st.pointerPosition = none) :
    updateColorUnderCursor stage layer p s = { state := s, reads := [], dispatched := [] } := by
  rcases h with h | h | ⟨st, hst, hp⟩
  · subst h; rfl
  · subst h; cases stage <;> rfl
  · subst hst; cases layer <;> simp [updateColorUnderCursor, hp]

/-- Witness for C3 with an absent stage. -/
theorem C3_idle_conditions_are_noops_witness :
    ((none : Option Stage) = none ∨ (some testLayer : Option RasterLayer) = none ∨
      ∃ st, (none : Option Stage) = some st ∧ st.pointerPosition = none) ∧
    updateColorUnderCursor none (some testLayer) 1 initialColorPickerState =
      { state := initialColorPickerState, reads := [], dispatched := [] } :=
  ⟨Or.inl rfl,
    C3_idle_conditions_are_noops none (some testLayer) 1 initialColorPickerState (Or.inl rfl)⟩

/-- C4: commit is idempotent: when `preview = c`, one commit sets
`committed = c` and a second commit with no intervening preview update
leaves `committed = c`. -/
theorem C4_commit_idempotent (hook : ColorPickerHook) (s : ColorPickerState) (c : RGBAColor)
    (h : s.preview = some c) :
    (commitColorUnderCursor hook s).state.committed = some c ∧
    (commitColorUnderCursor hook (commitColorUnderCursor hook s).state).state.committed =
      some c := by
  simp [commitColorUnderCursor, canvasReducer, h]

/-- Witness for C4 with preview (1, 2, 3, 4). -/
theorem C4_commit_idempotent_witness :
    (ColorPickerState.mk (some { r := 1, g := 2, b := 3, a := 4 }) none).preview =
      some { r := 1, g := 2, b := 3, a := 4 } ∧
    ((commitColorUnderCursor { stage := none, canvasBaseLayer := none }
        { preview := some { r := 1, g := 2, b := 3, a := 4 }, committed := none }).state.committed =
      some { r := 1, g := 2, b := 3, a := 4 } ∧
    (commitColorUnderCursor { stage := none, canvasBaseLayer := none }
        (commitColorUnderCursor { stage := none, canvasBaseLayer := none }
          { preview := some { r := 1, g := 2, b := 3, a := 4 },
            committed := none }).state).state.committed =
      some { r := 1, g := 2, b := 3, a := 4 }) :=
  ⟨rfl, C4_commit_idempotent { stage := none, canvasBaseLayer := none }
    { preview := some { r := 1, g := 2, b := 3, a := 4 }, committed := none }
    { r := 1, g := 2, b := 3, a := 4 } rfl⟩

/-- C5: when `preview` is absent, commit is a no-op: the whole state, and
in particular `committed`, is unchanged. -/
theorem C5_commit_noop_when_preview_unset (hook : ColorPickerHook) (s : ColorPickerState)
    (h : s.preview = none) :
    (commitColorUnderCursor hook s).state = s := by
  simp [commitColorUnderCursor, canvasReducer, h]

/-- Witness for C5 at the initial state: `committed` stays `Unset`. -/
theorem C5_commit_noop_when_preview_unset_witness :
    initialColorPickerState.preview = none ∧
    (commitColorUnderCursor { stage := none, canvasBaseLayer := none }
        initialColorPickerState).state = initialColorPickerState :=
  ⟨rfl, C5_commit_noop_when_preview_unset { stage := none, canvasBaseLayer := none }
    initialColorPickerState rfl⟩

/-- Counterexample to C6: the closures returned by `useColorPicker` capture
the stage and layer read at hook-invocation time, so a sampling call made
after the active layer has been replaced (here by `blueLayer`) does not
sample the currently-active layer, contradicting a fresh per-call lookup. -/
theorem C6_counterexample_no_per_call_lookup :
    hookUpdateColorUnderCursor (useColorPicker envRed) envBlue 1 initialColorPickerState ≠
      freshUpdateColorUnderCursor envBlue 1 initialColorPickerState := by
  have h0 : intTrunc (0 : Rat) = 0 := by norm_num [intTrunc]
  have key : ∀ L : RasterLayer, 0 < L.width → 0 < L.height →
      (updateColorUnderCursor (some { pointerPosition := some { x := 0, y := 0 } }) (some L) 1
          initialColorPickerState).state.preview = some (L.pixelAt 0 0) := by
    intro L hw hh
    rw [updateColorUnderCursor_sample _ L { x := 0, y := 0 } 1 _ rfl]
    have hrp : readPixel L (intTrunc (0 : Rat)) (intTrunc (0 : Rat)) =
        L.pixelAt 0 0 := by
      rw [h0]
      unfold readPixel
      rw [if_pos ⟨le_refl 0, by exact_mod_cast hw, le_refl 0, by exact_mod_cast hh⟩]
      rfl
    simp [sampledColor, hrp]
  intro heq
  have hr2 : (hookUpdateColorUnderCursor (useColorPicker envRed) envBlue 1
      initialColorPickerState).state.preview = some (redLayer.pixelAt 0 0) :=
    key redLayer (by norm_num [redLayer]) (by norm_num [redLayer])
  have hb2 : (freshUpdateColorUnderCursor envBlue 1 initialColorPickerState).state.preview =
      some (blueLayer.pixelAt 0 0) :=
    key blueLayer (by norm_num [blueLayer]) (by norm_num [blueLayer])
  rw [heq] at hr2
  rw [hr2] at hb2
  exact absurd hb2 (by simp [redLayer, blueLayer])

/-- C6 (amended): the stage and raster-layer references are obtained once,
when `useColorPicker` runs, and are captured by the returned closures;
every subsequent sampling call reuses the captured references and performs
no lookup of the environment current at call time. -/
theorem C6_refs_captured_at_hook_invocation
    (env0 env1 env2 : CanvasEnv) (p : Rat) (s : ColorPickerState) :
    hookUpdateColorUnderCursor (useColorPicker env0) env1 p s =
      freshUpdateColorUnderCursor env0 p s ∧
    hookUpdateColorUnderCursor (useColorPicker env0) env1 p s =
      hookUpdateColorUnderCursor (useColorPicker env0) env2 p s :=
  ⟨rfl, rfl⟩

/-- C7: concrete scenario: pixel ratio 2, logical pointer (10, 20), backing
pixel at physical (20, 40) equal to (255, 0, 128, 255): the sample sets the
preview to exactly that color, reading the four bytes in R, G, B, A order,
and a following commit copies it into `committed`. -/
theorem C7_concrete_scenario_rgba_order :
    (updateColorUnderCursor (some testStage) (some testLayer) 2
        initialColorPickerState).state.preview =
      some { r := 255, g := 0, b := 128, a := 255 } ∧
    (commitColorUnderCursor { stage := some testStage, canvasBaseLayer := some testLayer }
        (updateColorUnderCursor (some testStage) (some testLayer) 2
          initialColorPickerState).state).state.committed =
      some { r := 255, g := 0, b := 128, a := 255 } := by
  have h20 : intTrunc (20 : Rat) = 20 := by norm_num [intTrunc]
  have h40 : intTrunc (40 : Rat) = 40 := by norm_num [intTrunc]
  have hs := updateColorUnderCursor_sample testStage testLayer { x := 10, y := 20 } 2
    initialColorPickerState rfl
  have hp : sampledColor testLayer { x := 10, y := 20 } 2 =
      { r := 255, g := 0, b := 128, a := 255 } := by
    norm_num [sampledColor, h20, h40, readPixel, testLayer]
    decide
  rw [hs, hp]
  simp [commitColorUnderCursor, canvasReducer]

/-- C8: the sampling / preview-update path never touches `committed`:
every invocation of `updateColorUnderCursor`, successful or not, leaves
the `committed` field exactly as it was. -/
theorem C8_sampling_never_touches_committed
    (stage : Option Stage) (layer : Option RasterLayer) (p : Rat) (s : ColorPickerState) :
    (updateColorUnderCursor stage layer p s).state.committed = s.committed := by
  cases stage with
  | none => rfl
  | some st =>
    cases layer with
    | none => rfl
    | some l =>
      cases hp : st.pointerPosition with
      | none => simp [updateColorUnderCursor, hp]
      | some pos => rw [updateColorUnderCursor_sample st l pos p s hp]

/-- C9: `setColorPickerColor` is last-write-wins: after two consecutive
preview updates the preview equals the second color, whatever the prior
state. -/
theorem C9_updatePreview_last_write_wins (s : ColorPickerState) (c1 c2 : RGBAColor) :
    (canvasReducer (canvasReducer s (CanvasAction.setColorPickerColor c1))
        (CanvasAction.setColorPickerColor c2)).preview = some c2 := rfl

/-- C10: `commitColorUnderCursor` is independent of canvas availability:
from any two hook values (however the captured stage and layer differ, or
are absent) it performs the same state transition, and it unconditionally
dispatches the commit action, reading nothing from stage or layer. -/
theorem C10_commit_independent_of_canvas_availability
    (hook1 hook2 : ColorPickerHook) (s : ColorPickerState) :
    commitColorUnderCursor hook1 s = commitColorUnderCursor hook2 s ∧
    (commitColorUnderCursor hook1 s).dispatched = [CanvasAction.commitColorPickerColor] :=
  ⟨rfl, rfl⟩

end RaiWebUI
